import Mathlib

/-
Verification development for the pyobs-zaber repository: a shallow
embedding of the two source classes (ZaberModeSelector in
pyobs_zaber/ZaberModeSelector.py and ZaberMotor in
pyobs-zaber/zaber_xNMS23.py) together with theorems settling the
behavioural claims about them.

Modelling conventions:
 - Python numbers are rationals.
 - Dynamic typing at the bug-relevant sites is captured by a small
   Python-value type PyVal covering numbers, unit objects, strings,
   unawaited coroutine objects and (rational-valued) profile functions.
 - Operations that can raise return Except PyErr.
 - The motor hardware is a list of detected devices; each operation
   resolves its device by indexing that list at position 0, exactly as
   the source does, and a physical move updates the head device.
 - Python round (banker's rounding, half to even) is modelled by pyRound.
-/

/-- Errors a modelled Python operation can raise. -/
inductive PyErr where
  | typeError (msg : String)
  | indexError
  | nonTermination
deriving DecidableEq, Repr

/-- The fragment of Python values relevant to this module: numbers, the
zaber-motion unit enumeration members, strings, unawaited coroutine
objects, and profile functions of shape (x, v_max, s_max). -/
inductive PyVal where
  | num (q : ℚ)
  | unitVal (u : String)
  | str (s : String)
  | coroutine (name : String)
  | func (f : ℚ → ℚ → ℚ → ℚ)

/-- Python subtraction on modelled values: defined for two numbers, a
TypeError otherwise (in particular for a number minus an unawaited
coroutine object). -/
def pySub : PyVal → PyVal → Except PyErr ℚ
  | PyVal.num a, PyVal.num b => Except.ok (a - b)
  | _, _ => Except.error (PyErr.typeError "unsupported operand type for -")

/-- Python call of a modelled value with the profile calling convention
profile(x, v_max, s_max): only function values are callable; calling a
string (or anything else) raises a TypeError. -/
def pyCallProfile (f : PyVal) (x vMax sMax : ℚ) : Except PyErr ℚ :=
  match f with
  | PyVal.func g => Except.ok (g x vMax sMax)
  | _ => Except.error (PyErr.typeError "object is not callable")

/-- Python round to the nearest integer, halves to the nearest even
integer (banker's rounding), on exact rationals. -/
def pyRound (q : ℚ) : ℤ :=
  let f : ℤ := ⌊q⌋
  if q - f < 1/2 then f
  else if 1/2 < q - f then f + 1
  else if 2 ∣ f then f else f + 1

/-- One device detected on the serial connection: its identity and the
physical position of its axis 1. -/
structure Device where
  devId : ℕ
  position : ℚ
deriving DecidableEq, Repr

/-- The module-level constant steps = 100 of ZaberModeSelector.py. -/
def steps : ℕ := 100

/-- Velocity profile sin_prof of ZaberModeSelector.py:
v = v_max * sin(pi * x / s_max). -/
noncomputable def sin_prof (x v_max s_max : ℝ) : ℝ :=
  v_max * Real.sin (Real.pi * x / s_max)

/-- Velocity profile gauss_prof of ZaberModeSelector.py: mean s_max/2,
standard deviation s_max/6, v = v_max * exp(-0.5 (x-mu)^2 / sig^2). -/
noncomputable def gauss_prof (x v_max s_max : ℝ) : ℝ :=
  let mu := s_max / 2
  let sig := s_max / 6
  v_max * Real.exp (-(1/2) * (x - mu) ^ 2 / sig ^ 2)

/-- Velocity profile trian_prof of ZaberModeSelector.py: ramp up
2 v_max x / s_max for x <= s_max/2, ramp down 2 v_max (1 - x/s_max)
after the breakpoint. -/
noncomputable def trian_prof (x v_max s_max : ℝ) : ℝ :=
  if x ≤ s_max / 2 then 2 * v_max * x / s_max
  else 2 * v_max * (1 - x / s_max)

/-- Rational-valued copy of trian_prof, usable as a PyVal.func argument
when exercising the stepping loop on exact inputs. -/
def trian_prof_q (x v_max s_max : ℚ) : ℚ :=
  if x ≤ s_max / 2 then 2 * v_max * x / s_max
  else 2 * v_max * (1 - x / s_max)

/-- Keys of the module-level dict profiles of ZaberModeSelector.py,
in insertion order; its values are the three profile functions above.
Note the third key is spelled "triangel" in the source. -/
def profiles_keys : List String := ["sine", "gauss", "triangel"]

/-- Instance state of the ZaberMotor class of zaber_xNMS23.py, in
constructor order: port, basis, speed, length_unit, speed_unit.
Unit enumeration members are modelled by their names. -/
structure ZaberMotor where
  port : String
  basis : ℚ
  speed : ℚ
  length_unit : String
  speed_unit : String
deriving DecidableEq, Repr

/-- A relative-move command as handed to the zaber-motion driver by
ZaberMotor.move_by: device, axis length argument and the (possibly
ill-typed) unit arguments. -/
inductive MotorCmd where
  | moveRel (dev : ℕ) (length : ℚ) (length_unit : PyVal) (speed : ℚ)
      (speed_unit : PyVal)

namespace ZaberMotor

/-- ZaberMotor.move_by: resolve the optional arguments against the
instance defaults, index the detected-device list at 0, and issue one
relative move on axis 1. -/
def move_by (m : ZaberMotor) (devices : List Device) (length : ℚ)
    (speed : Option ℚ) (length_unit speed_unit : Option PyVal) :
    Except PyErr MotorCmd :=
  let speed := speed.getD m.speed
  let length_unit := length_unit.getD (PyVal.unitVal m.length_unit)
  let speed_unit := speed_unit.getD (PyVal.unitVal m.speed_unit)
  match devices with
  | [] => Except.error PyErr.indexError
  | d :: _ =>
      Except.ok (MotorCmd.moveRel d.devId length length_unit speed speed_unit)

/-- ZaberMotor.check_position: index the detected-device list at 0 and
read the position of axis 1 (the position_unit argument only selects the
reporting unit and is ignored by the model). -/
def check_position (m : ZaberMotor) (devices : List Device)
    (position_unit : Option PyVal) : Except PyErr ℚ :=
  let _pu := position_unit.getD (PyVal.unitVal m.length_unit)
  match devices with
  | [] => Except.error PyErr.indexError
  | d :: _ => Except.ok d.position

/-- The default-resolution block at the top of ZaberMotor.move_to,
returning (speed, length_unit, speed_unit) after the three is-None
checks. The source sets the speed_unit fallback to self.speed (a
number), not self.speed_unit. -/
def move_to_defaults (m : ZaberMotor) (speed : Option ℚ)
    (length_unit speed_unit : Option PyVal) : ℚ × PyVal × PyVal :=
  (speed.getD m.speed,
   length_unit.getD (PyVal.unitVal m.length_unit),
   speed_unit.getD (PyVal.num m.speed))

/-- ZaberMotor.move_to: resolve defaults, compute
step = position - self.check_position() (the source does not await the
coroutine, so the subtraction operates on a coroutine object), then
delegate to move_by. -/
def move_to (m : ZaberMotor) (devices : List Device) (position : ℚ)
    (speed : Option ℚ) (length_unit speed_unit : Option PyVal) :
    Except PyErr MotorCmd :=
  let args := move_to_defaults m speed length_unit speed_unit
  do
    let step ← pySub (PyVal.num position)
      (PyVal.coroutine "ZaberMotor.check_position")
    move_by m devices step (some args.1) (some args.2.1) (some args.2.2)

/-- ZaberMotor.to_basis: move to the configured basis position. -/
def to_basis (m : ZaberMotor) (devices : List Device) :
    Except PyErr MotorCmd :=
  move_to m devices m.basis none none none

end ZaberMotor

/-- Instance state of the ZaberModeSelector class, in constructor order:
modes, port, speed, profile, length_unit, speed_unit. The source keeps
the profile as the name string passed to the constructor
(self.profile = profile). -/
structure ZaberModeSelector where
  modes : List (String × ℚ)
  port : String
  speed : ℚ
  profile : Option String
  length_unit : String
  speed_unit : String
deriving DecidableEq, Repr

/-- A driver command issued by a ZaberModeSelector operation. -/
inductive Cmd where
  | moveRel (dev : ℕ) (length : ℚ) (length_unit : String) (speed : ℚ)
      (speed_unit : String)
  | moveAbs (dev : ℕ) (position : ℚ) (length_unit : String) (speed : ℚ)
      (speed_unit : String)
  | setLed (dev : ℕ) (value : ℚ)
deriving DecidableEq, Repr

/-- A log record emitted by a ZaberModeSelector operation; warnings carry
the list of available modes they report. -/
inductive LogEvent where
  | info (msg : String)
  | warning (msg : String) (available : List String)
deriving DecidableEq, Repr

/-- Physical effect of a command on the detected-device list: moves act
on the head device (the one the command was issued to), the LED setting
does not change any position. -/
def applyCmd (devices : List Device) : Cmd → List Device
  | Cmd.moveRel _ len _ _ _ =>
      match devices with
      | [] => []
      | d :: rest => { d with position := d.position + len } :: rest
  | Cmd.moveAbs _ pos _ _ _ =>
      match devices with
      | [] => []
      | d :: rest => { d with position := pos } :: rest
  | Cmd.setLed _ _ => devices

/-- Python dict lookup on an association list in insertion order. -/
def dictGet : List (String × ℚ) → String → Option ℚ
  | [], _ => none
  | (n, p) :: rest, k => if n = k then some p else dictGet rest k

/-- The reverse lookup of get_mode: the name of the first mode in
insertion order whose position equals the rounded current position
(Python compares the int round(pos_current) against the numeric
mode position). -/
def findMode : List (String × ℚ) → ℤ → Option String
  | [], _ => none
  | (n, p) :: rest, r =>
      if (r : ℚ) = p then some n else findMode rest r

namespace ZaberModeSelector

/-- ZaberModeSelector.list_modes: the configured mode names in insertion
order. -/
def list_modes (st : ZaberModeSelector) : List String :=
  st.modes.map Prod.fst

/-- ZaberModeSelector.move_by: default the speed, index the
detected-device list at 0 and issue one relative move on axis 1 with the
instance units. -/
def move_by (st : ZaberModeSelector) (devices : List Device) (length : ℚ)
    (speed : Option ℚ) : Except PyErr Cmd :=
  let speed := speed.getD st.speed
  match devices with
  | [] => Except.error PyErr.indexError
  | d :: _ =>
      Except.ok (Cmd.moveRel d.devId length st.length_unit speed st.speed_unit)

/-- ZaberModeSelector.check_position: index the detected-device list at 0
and read the position of axis 1. -/
def check_position (st : ZaberModeSelector) (devices : List Device) :
    Except PyErr ℚ :=
  match devices with
  | [] => Except.error PyErr.indexError
  | d :: _ => Except.ok d.position

/-- ZaberModeSelector.move_to: index the detected-device list at 0 and
issue one absolute move on axis 1 at the instance speed and units. -/
def move_to (st : ZaberModeSelector) (devices : List Device)
    (position : ℚ) : Except PyErr Cmd :=
  match devices with
  | [] => Except.error PyErr.indexError
  | d :: _ =>
      Except.ok (Cmd.moveAbs d.devId position st.length_unit st.speed
        st.speed_unit)

/-- ZaberModeSelector.enable_led: index the detected-device list at 0 and
write the system.led.enable setting with float(status). -/
def enable_led (st : ZaberModeSelector) (devices : List Device)
    (status : Bool) : Except PyErr Cmd :=
  match devices with
  | [] => Except.error PyErr.indexError
  | d :: _ => Except.ok (Cmd.setLed d.devId (if status then 1 else 0))

/-- ZaberModeSelector.get_mode: read the current position and return the
first mode in insertion order whose position equals the rounded current
position; otherwise warn (listing the available modes) and return the
sentinel "undefined". -/
def get_mode (st : ZaberModeSelector) (devices : List Device) :
    Except PyErr (String × List LogEvent) := do
  let pos ← check_position st devices
  match findMode st.modes (pyRound pos) with
  | some n => Except.ok (n, [])
  | none =>
      Except.ok ("undefined",
        [LogEvent.warning "None of the available modes selected."
          (list_modes st)])

/-- The while loop of ZaberModeSelector.profile_move_to, with explicit
fuel: while abs(s) < s_max, average the profile at the start and end
offsets of the step, advance s by ds, and issue a relative move of ds at
the averaged speed (each move acts on the fresh device list, whose head
position the previous move changed). -/
def profileLoop (st : ZaberModeSelector) (profile : PyVal) (sMax ds : ℚ) :
    ℕ → ℚ → List Device → Except PyErr (List Cmd × List Device)
  | 0, _, _ => Except.error PyErr.nonTermination
  | fuel + 1, s, devices =>
      if |s| < sMax then do
        let v1 ← pyCallProfile profile s st.speed sMax
        let v2 ← pyCallProfile profile (s + ds) st.speed sMax
        let v := (v1 + v2) / 2
        let cmd ← move_by st devices ds (some v)
        let rest ← profileLoop st profile sMax ds fuel (s + ds)
          (applyCmd devices cmd)
        Except.ok (cmd :: rest.1, rest.2)
      else Except.ok ([], devices)

/-- ZaberModeSelector.profile_move_to: compute
s_max = position - self.check_position() (the source does not await the
coroutine, so the subtraction operates on a coroutine object), then run
the stepping loop from s = 0 with ds = s_max / steps. -/
def profile_move_to (st : ZaberModeSelector) (devices : List Device)
    (position : ℚ) (profile : PyVal) :
    Except PyErr (List Cmd × List Device) := do
  let sMax ← pySub (PyVal.num position)
    (PyVal.coroutine "ZaberModeSelector.check_position")
  profileLoop st profile sMax (sMax / steps) (steps + 1) 0 devices

/-- The dict access self.modes[mode] of set_mode, evaluated only after
membership is known. -/
def lookupMode (modes : List (String × ℚ)) (mode : String) : ℚ :=
  (dictGet modes mode).getD 0

/-- ZaberModeSelector.set_mode: if the name is a configured mode and the
current mode differs, move — by one absolute move when no profile is
configured, else by profile_move_to with self.profile (the stored name
string) passed as the profile; if the mode is already selected only log;
if the name is unknown only warn, listing the available modes. Returns
the issued commands, the log records and the device list after the
motion. -/
def set_mode (st : ZaberModeSelector) (devices : List Device)
    (mode : String) :
    Except PyErr (List Cmd × List LogEvent × List Device) :=
  let available := list_modes st
  if mode ∈ available then do
    let cur ← get_mode st devices
    if cur.1 = mode then
      Except.ok ([],
        cur.2 ++ [LogEvent.info ("Mode " ++ mode ++ " already selected.")],
        devices)
    else
      match st.profile with
      | none => do
          let cmd ← move_to st devices (lookupMode st.modes mode)
          Except.ok ([cmd],
            cur.2 ++ [LogEvent.info "Moving mode selector ...",
              LogEvent.info ("Mode " ++ mode ++ " ready.")],
            applyCmd devices cmd)
      | some name => do
          let moved ← profile_move_to st devices (lookupMode st.modes mode)
            (PyVal.str name)
          Except.ok (moved.1,
            cur.2 ++ [LogEvent.info "Moving mode selector ...",
              LogEvent.info ("Mode " ++ mode ++ " ready.")],
            moved.2)
  else
    Except.ok ([],
      [LogEvent.warning ("Unknown mode " ++ mode ++ ".") available],
      devices)

end ZaberModeSelector

/-- Python round is the identity on integers. -/
theorem pyRound_intCast (z : ℤ) : pyRound (z : ℚ) = z := by
  unfold pyRound
  rw [Int.floor_intCast]
  rw [if_pos]
  rw [sub_self]
  norm_num

/-- A name produced by findMode belongs to the mode table, paired with
the rounded position it matched. -/
theorem findMode_mem {l : List (String × ℚ)} {r : ℤ} {n : String}
    (h : findMode l r = some n) : (n, (r : ℚ)) ∈ l := by
  induction l with
  | nil => simp [findMode] at h
  | cons e rest ih =>
      obtain ⟨nm, p⟩ := e
      rw [findMode] at h
      by_cases hc : (r : ℚ) = p
      · rw [if_pos hc] at h
        obtain rfl : nm = n := by injection h
        rw [hc]
        exact List.mem_cons_self _ _
      · rw [if_neg hc] at h
        exact List.mem_cons_of_mem _ (ih h)

/-- If some entry of the table carries the rounded position, findMode
returns a name. -/
theorem findMode_isSome {l : List (String × ℚ)} {r : ℤ}
    (h : ∃ e ∈ l, e.2 = (r : ℚ)) : ∃ n, findMode l r = some n := by
  induction l with
  | nil => simp at h
  | cons e rest ih =>
      obtain ⟨nm, p⟩ := e
      by_cases hc : (r : ℚ) = p
      · exact ⟨nm, by rw [findMode, if_pos hc]⟩
      · obtain ⟨e, he, he2⟩ := h
        rcases List.mem_cons.mp he with rfl | hrest
        · exact absurd he2.symm hc
        · obtain ⟨n, hn⟩ := ih ⟨e, hrest, he2⟩
          exact ⟨n, by rw [findMode, if_neg hc]; exact hn⟩

/-- If no entry of the table carries the rounded position, findMode
returns none. -/
theorem findMode_eq_none {l : List (String × ℚ)} {r : ℤ}
    (h : ∀ e ∈ l, e.2 ≠ (r : ℚ)) : findMode l r = none := by
  induction l with
  | nil => rfl
  | cons e rest ih =>
      obtain ⟨nm, p⟩ := e
      rw [findMode, if_neg fun hc => h (nm, p) (List.mem_cons_self _ _) hc.symm]
      exact ih fun e he => h e (List.mem_cons_of_mem _ he)

/-- findMode returns the name at the first index whose position matches
the rounded position. -/
theorem findMode_first {l : List (String × ℚ)} {r : ℤ} {i : ℕ}
    (hi : i < l.length) (hmatch : (l.get ⟨i, hi⟩).2 = (r : ℚ))
    (hbefore : ∀ j (hj : j < i),
      (l.get ⟨j, Nat.lt_trans hj hi⟩).2 ≠ (r : ℚ)) :
    findMode l r = some (l.get ⟨i, hi⟩).1 := by
  induction l generalizing i with
  | nil => exact absurd hi (Nat.not_lt_zero i)
  | cons e rest ih =>
      obtain ⟨nm, p⟩ := e
      cases i with
      | zero =>
          simp only [List.get] at hmatch ⊢
          rw [findMode, if_pos hmatch.symm]
      | succ i =>
          have hhead : p ≠ (r : ℚ) := by
            have := hbefore 0 (Nat.succ_pos i)
            simpa using this
          rw [findMode, if_neg fun hc => hhead hc.symm]
          exact ih (Nat.lt_of_succ_lt_succ hi) hmatch
            fun j hj => hbefore (j + 1) (Nat.succ_lt_succ hj)

/-- A key of the table has a dict value. -/
theorem dictGet_isSome_of_mem_keys {l : List (String × ℚ)} {k : String}
    (h : k ∈ l.map Prod.fst) : ∃ q, dictGet l k = some q := by
  induction l with
  | nil => simp at h
  | cons e rest ih =>
      obtain ⟨nm, p⟩ := e
      by_cases hc : nm = k
      · exact ⟨p, by rw [dictGet, if_pos hc]⟩
      · rcases List.mem_map.mp h with ⟨e, he, hfst⟩
        rcases List.mem_cons.mp he with rfl | hrest
        · exact absurd hfst hc
        · obtain ⟨q, hq⟩ := ih (List.mem_map.mpr ⟨e, hrest, hfst⟩)
          exact ⟨q, by rw [dictGet, if_neg hc]; exact hq⟩

/-- A dict value comes from an entry of the table. -/
theorem mem_of_dictGet_eq_some {l : List (String × ℚ)} {k : String} {q : ℚ}
    (h : dictGet l k = some q) : (k, q) ∈ l := by
  induction l with
  | nil => simp [dictGet] at h
  | cons e rest ih =>
      obtain ⟨nm, p⟩ := e
      rw [dictGet] at h
      by_cases hc : nm = k
      · rw [if_pos hc] at h
        obtain rfl : p = q := by injection h
        rw [← hc]
        exact List.mem_cons_self _ _
      · rw [if_neg hc] at h
        exact List.mem_cons_of_mem _ (ih h)

/-- With duplicate-free keys (a Python dict invariant), membership of an
entry determines the dict value. -/
theorem dictGet_eq_some_of_mem {l : List (String × ℚ)}
    (hnd : (l.map Prod.fst).Nodup) {n : String} {q : ℚ}
    (hm : (n, q) ∈ l) : dictGet l n = some q := by
  induction l with
  | nil => simp at hm
  | cons e rest ih =>
      obtain ⟨nm, p⟩ := e
      rw [List.map_cons, List.nodup_cons] at hnd
      rcases List.mem_cons.mp hm with heq | hrest
      · obtain ⟨rfl, rfl⟩ := Prod.mk.injEq .. ▸ And.intro
          (congrArg Prod.fst heq) (congrArg Prod.snd heq)
        rw [dictGet, if_pos rfl]
      · by_cases hc : nm = n
        · exfalso
          exact hnd.1 (hc ▸ List.mem_map.mpr ⟨(n, q), hrest, rfl⟩)
        · rw [dictGet, if_neg hc]
          exact ih hnd.2 hrest

/-- Computation rule for bind on a successful Except value. -/
theorem ok_bind {ε α β : Type} (a : α) (f : α → Except ε β) :
    (Except.ok a >>= f : Except ε β) = f a := rfl

/-- Computation rule for bind on a failed Except value. -/
theorem error_bind {ε α β : Type} (e : ε) (f : α → Except ε β) :
    (Except.error e >>= f : Except ε β) = Except.error e := rfl

/-- Claim C1: the source computes s_max = position - self.check_position()
without awaiting the coroutine, so profile_move_to raises a TypeError
before issuing any of the 100 relative moves the loop is meant to
produce, even when a genuine profile function is supplied. -/
theorem profile_move_to_missing_await_eval :
    ZaberModeSelector.profile_move_to
      ⟨[("a", 0), ("b", 10)], "p", 1, some "sine", "deg", "dps"⟩
      [⟨1, 0⟩] 10 (PyVal.func trian_prof_q) =
      Except.error (PyErr.typeError "unsupported operand type for -") := rfl

/-- Claim C2: the configured profile name is never resolved through the
profiles dict (whose third key is moreover spelled "triangel", not
"triangle"); set_mode passes the stored name string itself to
profile_move_to, so no profile function ever drives the motion: the call
raises a TypeError (first at the unawaited check_position subtraction,
and calling the string would equally raise one). -/
theorem set_mode_profile_never_resolved_eval :
    ZaberModeSelector.set_mode
      ⟨[("a", 0), ("b", 10)], "p", 1, some "sine", "deg", "dps"⟩
      [⟨1, 0⟩] "b" =
      Except.error (PyErr.typeError "unsupported operand type for -")
    ∧ pyCallProfile (PyVal.str "sine") 0 1 10 =
      Except.error (PyErr.typeError "object is not callable")
    ∧ "triangle" ∉ profiles_keys := by
  refine ⟨?_, rfl, by decide⟩
  have h0 : pyRound 0 = 0 := by norm_num [pyRound]
  simp [ZaberModeSelector.set_mode, ZaberModeSelector.get_mode,
    ZaberModeSelector.check_position, ZaberModeSelector.profile_move_to,
    ZaberModeSelector.list_modes, ZaberModeSelector.lookupMode, dictGet,
    findMode, pySub, h0, ok_bind, error_bind]

/-- Claim C3: set_mode on a name that is not a key of the mode table
issues no motion command, raises nothing, logs exactly one warning
listing the available modes, and leaves the device list (hence the motor
position) unchanged. -/
theorem set_mode_unknown_mode_no_motion (st : ZaberModeSelector)
    (devices : List Device) (mode : String)
    (h : mode ∉ ZaberModeSelector.list_modes st) :
    ZaberModeSelector.set_mode st devices mode =
      Except.ok ([],
        [LogEvent.warning ("Unknown mode " ++ mode ++ ".")
          (ZaberModeSelector.list_modes st)],
        devices) := by
  simp [ZaberModeSelector.set_mode, h]

/-- Witness for claim C3 at a concrete unknown mode. -/
theorem set_mode_unknown_mode_no_motion_witness :
    "zzz" ∉ ZaberModeSelector.list_modes
      ⟨[("a", 0), ("b", 10)], "p", 1, none, "deg", "dps"⟩
    ∧ ZaberModeSelector.set_mode
        ⟨[("a", 0), ("b", 10)], "p", 1, none, "deg", "dps"⟩
        [⟨1, 0⟩] "zzz" =
      Except.ok ([],
        [LogEvent.warning "Unknown mode zzz." ["a", "b"]],
        [⟨1, 0⟩]) :=
  ⟨by decide,
   set_mode_unknown_mode_no_motion
     ⟨[("a", 0), ("b", 10)], "p", 1, none, "deg", "dps"⟩
     [⟨1, 0⟩] "zzz" (by decide)⟩

/-- Claim C4: get_mode reads the current position and returns the name
of a mode whose configured position equals the rounded current position;
when no configured position matches after rounding it returns the
sentinel "undefined" with a warning listing the available modes, and in
both cases it returns rather than raising. -/
theorem get_mode_rounded_match_or_undefined (st : ZaberModeSelector)
    (d : Device) (rest : List Device) :
    ((∃ e ∈ st.modes, e.2 = (pyRound d.position : ℚ)) →
      ∃ n, ZaberModeSelector.get_mode st (d :: rest) = Except.ok (n, []) ∧
        (n, (pyRound d.position : ℚ)) ∈ st.modes)
    ∧ ((∀ e ∈ st.modes, e.2 ≠ (pyRound d.position : ℚ)) →
      ZaberModeSelector.get_mode st (d :: rest) =
        Except.ok ("undefined",
          [LogEvent.warning "None of the available modes selected."
            (ZaberModeSelector.list_modes st)])) := by
  constructor
  · intro h
    obtain ⟨n, hn⟩ := findMode_isSome h
    refine ⟨n, ?_, findMode_mem hn⟩
    simp [ZaberModeSelector.get_mode, ZaberModeSelector.check_position, hn,
      ok_bind]
  · intro h
    have hn := findMode_eq_none h
    simp [ZaberModeSelector.get_mode, ZaberModeSelector.check_position, hn,
      ok_bind]

/-- Witness for claim C4: a rounded match at position 16/5 (rounding to
3, the position of mode a) and the sentinel at position 7. -/
theorem get_mode_rounded_match_or_undefined_witness :
    (∃ n, ZaberModeSelector.get_mode
        ⟨[("a", 3)], "p", 1, none, "deg", "dps"⟩ [⟨1, 16/5⟩] =
        Except.ok (n, []) ∧
        (n, ((pyRound ((16 : ℚ)/5) : ℤ) : ℚ)) ∈ [("a", (3 : ℚ))])
    ∧ ZaberModeSelector.get_mode
        ⟨[("a", 3)], "p", 1, none, "deg", "dps"⟩ [⟨1, 7⟩] =
      Except.ok ("undefined",
        [LogEvent.warning "None of the available modes selected." ["a"]]) :=
  ⟨(get_mode_rounded_match_or_undefined
      ⟨[("a", 3)], "p", 1, none, "deg", "dps"⟩ ⟨1, 16/5⟩ []).1
      ⟨("a", 3), by simp, by norm_num [pyRound]⟩,
   (get_mode_rounded_match_or_undefined
      ⟨[("a", 3)], "p", 1, none, "deg", "dps"⟩ ⟨1, 7⟩ []).2
      (by
        intro e he
        simp at he
        subst he
        norm_num [pyRound])⟩

/-- Claim C5 counterexample: with the single mode a at the non-integer
position 1/2 and no profile, set_mode "a" completes successfully and the
motor lands exactly where the issued absolute move directs it, yet the
subsequent get_mode reports "undefined" (round(1/2) = 0 never equals
1/2), not "a", and no second mode shares the position. -/
theorem set_mode_get_mode_roundtrip_cex :
    ZaberModeSelector.set_mode ⟨[("a", 1/2)], "p", 1, none, "deg", "dps"⟩
      [⟨1, 0⟩] "a" =
      Except.ok ([Cmd.moveAbs 1 (1/2) "deg" 1 "dps"],
        [LogEvent.warning "None of the available modes selected." ["a"],
         LogEvent.info "Moving mode selector ...",
         LogEvent.info "Mode a ready."],
        [⟨1, 1/2⟩])
    ∧ ZaberModeSelector.get_mode ⟨[("a", 1/2)], "p", 1, none, "deg", "dps"⟩
        [⟨1, 1/2⟩] =
      Except.ok ("undefined",
        [LogEvent.warning "None of the available modes selected." ["a"]]) := by
  have h0 : pyRound 0 = 0 := by norm_num [pyRound]
  have h1 : pyRound ((2:ℚ)⁻¹) = 0 := by norm_num [pyRound]
  have hne : ((0 : ℤ) : ℚ) ≠ 2⁻¹ := by norm_num
  constructor
  · simp [ZaberModeSelector.set_mode, ZaberModeSelector.get_mode,
      ZaberModeSelector.check_position, ZaberModeSelector.move_to,
      ZaberModeSelector.list_modes, ZaberModeSelector.lookupMode, dictGet,
      findMode, h0, h1, hne, applyCmd, ok_bind, error_bind]
  · simp [ZaberModeSelector.get_mode, ZaberModeSelector.check_position,
      ZaberModeSelector.list_modes, findMode, h1, hne, ok_bind]

/-- Auxiliary step for the round-trip property: after the absolute move
of the no-profile branch has set the head device to the looked-up target
position, get_mode reports a mode name sharing that mode's configured
position, provided all positions are integers and keys are unique. -/
theorem roundtrip_moved (st : ZaberModeSelector) (d : Device)
    (rest : List Device) (mode n : String) (glogs2 : List LogEvent)
    (hnd : (st.modes.map Prod.fst).Nodup)
    (hint : ∀ e ∈ st.modes, ∃ z : ℤ, e.2 = (z : ℚ))
    (hmem : mode ∈ ZaberModeSelector.list_modes st)
    (hget : ZaberModeSelector.get_mode st
      ({ d with position := ZaberModeSelector.lookupMode st.modes mode } ::
        rest) = Except.ok (n, glogs2)) :
    n ∈ ZaberModeSelector.list_modes st ∧
      dictGet st.modes n = dictGet st.modes mode := by
  obtain ⟨q, hq⟩ := dictGet_isSome_of_mem_keys hmem
  have hp : ZaberModeSelector.lookupMode st.modes mode = q := by
    simp [ZaberModeSelector.lookupMode, hq]
  have hmm : (mode, q) ∈ st.modes := mem_of_dictGet_eq_some hq
  obtain ⟨z, hz⟩ := hint (mode, q) hmm
  have hz' : q = (z : ℚ) := hz
  have hround : ((pyRound q : ℤ) : ℚ) = q := by rw [hz', pyRound_intCast]
  have hex : ∃ e ∈ st.modes, e.2 = ((pyRound q : ℤ) : ℚ) :=
    ⟨(mode, q), hmm, by rw [hround]⟩
  obtain ⟨n0, hn0⟩ := findMode_isSome hex
  have hgm2 : ZaberModeSelector.get_mode st
      ({ d with position := q } :: rest) = Except.ok (n0, []) := by
    simp [ZaberModeSelector.get_mode, ZaberModeSelector.check_position, hn0,
      ok_bind]
  rw [hp, hgm2] at hget
  have hpair := Except.ok.inj hget
  have hn' : n0 = n := congrArg Prod.fst hpair
  subst hn'
  have hmem2 := findMode_mem hn0
  rw [hround] at hmem2
  constructor
  · exact List.mem_map.mpr ⟨(n0, q), hmem2, rfl⟩
  · rw [dictGet_eq_some_of_mem hnd hmem2, hq]

/-- Claim C5 (amended): for a mode table with duplicate-free keys and
integer positions, whenever set_mode(name) on a known name completes
successfully and the motor lands where the issued commands direct it,
a following get_mode reports a mode name whose configured position equals
the configured position of name: name itself, or either sharing name when
two modes share the position. (For non-integer positions the round trip
fails, see the counterexample, and a profiled configuration only
completes in the already-selected case.) -/
theorem set_mode_get_mode_roundtrip_int_positions
    (st : ZaberModeSelector) (devices devicesAfter : List Device)
    (mode n : String) (cmds : List Cmd) (logs glogs2 : List LogEvent)
    (hnd : (st.modes.map Prod.fst).Nodup)
    (hint : ∀ e ∈ st.modes, ∃ z : ℤ, e.2 = (z : ℚ))
    (hmem : mode ∈ ZaberModeSelector.list_modes st)
    (hok : ZaberModeSelector.set_mode st devices mode =
      Except.ok (cmds, logs, devicesAfter))
    (hget : ZaberModeSelector.get_mode st devicesAfter =
      Except.ok (n, glogs2)) :
    n ∈ ZaberModeSelector.list_modes st ∧
      dictGet st.modes n = dictGet st.modes mode := by
  cases devices with
  | nil =>
      exfalso
      simp [ZaberModeSelector.set_mode, hmem, ZaberModeSelector.get_mode,
        ZaberModeSelector.check_position, ok_bind, error_bind] at hok
  | cons d rest =>
      obtain ⟨cur, hgm⟩ : ∃ cur, ZaberModeSelector.get_mode st (d :: rest) =
          Except.ok cur := by
        rcases hfm : findMode st.modes (pyRound d.position) with _ | nm
        · exact ⟨("undefined",
            [LogEvent.warning "None of the available modes selected."
              (ZaberModeSelector.list_modes st)]),
            by simp [ZaberModeSelector.get_mode,
              ZaberModeSelector.check_position, hfm, ok_bind]⟩
        · exact ⟨(nm, []), by simp [ZaberModeSelector.get_mode,
            ZaberModeSelector.check_position, hfm, ok_bind]⟩
      by_cases hcur : cur.1 = mode
      · simp [ZaberModeSelector.set_mode, hmem, hgm, ok_bind, hcur] at hok
        obtain ⟨h1, h2, h3⟩ := hok
        rw [← h3, hgm] at hget
        have hp2 := (Except.ok.inj hget).symm
        have hn : n = mode := by rw [← hcur, ← hp2]
        subst hn
        exact ⟨hmem, rfl⟩
      · rcases hpr : st.profile with _ | name
        · simp [ZaberModeSelector.set_mode, hmem, hgm, ok_bind, hcur, hpr,
            ZaberModeSelector.move_to, applyCmd] at hok
          obtain ⟨h1, h2, h3⟩ := hok
          rw [← h3] at hget
          exact roundtrip_moved st d rest mode n glogs2 hnd hint hmem hget
        · exfalso
          simp [ZaberModeSelector.set_mode, hmem, hgm, ok_bind, error_bind,
            hcur, hpr, ZaberModeSelector.profile_move_to, pySub] at hok

/-- Witness for the amended claim C5: a complete concrete run moving from
mode a (position 0) to mode b (position 10) and reading b back. -/
theorem set_mode_get_mode_roundtrip_int_positions_witness :
    (([("a", (0:ℚ)), ("b", 10)].map Prod.fst).Nodup
    ∧ (∀ e ∈ [("a", (0:ℚ)), ("b", 10)], ∃ z : ℤ, e.2 = (z : ℚ))
    ∧ "b" ∈ ZaberModeSelector.list_modes
        ⟨[("a", 0), ("b", 10)], "p", 1, none, "deg", "dps"⟩
    ∧ ZaberModeSelector.set_mode
        ⟨[("a", 0), ("b", 10)], "p", 1, none, "deg", "dps"⟩ [⟨1, 0⟩] "b" =
      Except.ok ([Cmd.moveAbs 1 10 "deg" 1 "dps"],
        [LogEvent.info "Moving mode selector ...",
         LogEvent.info "Mode b ready."],
        [⟨1, 10⟩])
    ∧ ZaberModeSelector.get_mode
        ⟨[("a", 0), ("b", 10)], "p", 1, none, "deg", "dps"⟩ [⟨1, 10⟩] =
      Except.ok ("b", []))
    ∧ ("b" ∈ ZaberModeSelector.list_modes
        ⟨[("a", 0), ("b", 10)], "p", 1, none, "deg", "dps"⟩
      ∧ dictGet [("a", 0), ("b", 10)] "b" = dictGet [("a", 0), ("b", 10)] "b") := by
  have h0 : pyRound 0 = 0 := by norm_num [pyRound]
  have h10 : pyRound 10 = 10 := by norm_num [pyRound]
  have hint : ∀ e ∈ [("a", (0:ℚ)), ("b", 10)], ∃ z : ℤ, e.2 = (z : ℚ) := by
    intro e he
    simp at he
    rcases he with he | he
    · exact he ▸ ⟨0, by norm_num⟩
    · exact he ▸ ⟨10, by norm_num⟩
  have hok : ZaberModeSelector.set_mode
      ⟨[("a", 0), ("b", 10)], "p", 1, none, "deg", "dps"⟩ [⟨1, 0⟩] "b" =
      Except.ok ([Cmd.moveAbs 1 10 "deg" 1 "dps"],
        [LogEvent.info "Moving mode selector ...",
         LogEvent.info "Mode b ready."],
        [⟨1, 10⟩]) := by
    simp [ZaberModeSelector.set_mode, ZaberModeSelector.get_mode,
      ZaberModeSelector.check_position, ZaberModeSelector.move_to,
      ZaberModeSelector.list_modes, ZaberModeSelector.lookupMode, dictGet,
      findMode, h0, applyCmd, ok_bind]
  have hget : ZaberModeSelector.get_mode
      ⟨[("a", 0), ("b", 10)], "p", 1, none, "deg", "dps"⟩ [⟨1, 10⟩] =
      Except.ok ("b", []) := by
    have hne : ((10 : ℤ) : ℚ) ≠ 0 := by norm_num
    simp [ZaberModeSelector.get_mode, ZaberModeSelector.check_position,
      findMode, h10, hne, ok_bind]
  exact ⟨⟨by decide, hint, by decide, hok, hget⟩,
    set_mode_get_mode_roundtrip_int_positions
      ⟨[("a", 0), ("b", 10)], "p", 1, none, "deg", "dps"⟩ [⟨1, 0⟩] [⟨1, 10⟩]
      "b" "b" [Cmd.moveAbs 1 10 "deg" 1 "dps"]
      [LogEvent.info "Moving mode selector ...",
       LogEvent.info "Mode b ready."] []
      (by decide) hint (by decide) hok hget⟩

/-- Claim C6: ZaberMotor.move_to resolves an unspecified speed_unit to
self.speed (a number) rather than self.speed_unit, and its
step = position - self.check_position() misses the await, so the call
raises a TypeError instead of delegating the step to move_by. -/
theorem move_to_speed_unit_default_bug :
    (ZaberMotor.move_to_defaults
      ⟨"p", 0, 5, "ANGLE_DEGREES", "ANGULAR_VELOCITY_DEGREES_PER_SECOND"⟩
      none none none).2.2 = PyVal.num 5
    ∧ PyVal.num 5 ≠ PyVal.unitVal "ANGULAR_VELOCITY_DEGREES_PER_SECOND"
    ∧ ZaberMotor.move_to
        ⟨"p", 0, 5, "ANGLE_DEGREES", "ANGULAR_VELOCITY_DEGREES_PER_SECOND"⟩
        [⟨1, 0⟩] 10 none none none =
      Except.error (PyErr.typeError "unsupported operand type for -") :=
  ⟨rfl, fun h => PyVal.noConfusion h, rfl⟩

/-- Claim C7: for nonzero total displacement, the sine profile vanishes
at offset 0 and at offset sMax and reaches vMax at sMax/2; the
triangular profile is continuous at the breakpoint sMax/2, where the
ramp-up branch (taken by the function) and the ramp-down branch both
evaluate to vMax. -/
theorem profile_shape_endpoints (v s : ℝ) (hs : s ≠ 0) :
    sin_prof 0 v s = 0 ∧ sin_prof s v s = 0 ∧ sin_prof (s / 2) v s = v ∧
    trian_prof (s / 2) v s = v ∧ 2 * v * (1 - (s / 2) / s) = v ∧
    ContinuousAt (fun x => trian_prof x v s) (s / 2) := by
  have hb1 : 2 * v * (s / 2) / s = v := by field_simp; ring
  have hb2 : 2 * v * (1 - s / 2 / s) = v := by field_simp; ring
  refine ⟨?_, ?_, ?_, ?_, ?_, ?_⟩
  · simp [sin_prof]
  · rw [sin_prof, mul_div_assoc, div_self hs, mul_one, Real.sin_pi, mul_zero]
  · rw [sin_prof, show Real.pi * (s / 2) / s = Real.pi / 2 by field_simp; ring,
      Real.sin_pi_div_two, mul_one]
  · rw [trian_prof, if_pos le_rfl]
    exact hb1
  · exact hb2
  · have hcont : Continuous (fun x => trian_prof x v s) := by
      unfold trian_prof
      apply Continuous.if_le
      · exact (continuous_const.mul continuous_id).div_const s
      · exact continuous_const.mul (continuous_const.sub
          (continuous_id.div_const s))
      · exact continuous_id
      · exact continuous_const
      · intro x hx
        rw [hx, hb1, hb2]
    exact hcont.continuousAt

/-- Witness for claim C7 at vMax 3, sMax 2. -/
theorem profile_shape_endpoints_witness :
    ((2 : ℝ) ≠ 0)
    ∧ (sin_prof 0 3 2 = 0 ∧ sin_prof 2 3 2 = 0 ∧
       sin_prof (2 / 2) 3 2 = 3 ∧ trian_prof (2 / 2) 3 2 = 3 ∧
       (2 : ℝ) * 3 * (1 - (2 / 2) / 2) = 3 ∧
       ContinuousAt (fun x => trian_prof x 3 2) (2 / 2)) :=
  ⟨by norm_num, profile_shape_endpoints 3 2 (by norm_num)⟩

/-- Claim C8: every modelled motor operation resolves its device by
indexing the detected-device list at position 0: an empty list makes the
operation fail with the unhandled indexing error, and with several
devices present the operation silently acts on the first one. -/
theorem device_resolution_first_or_error (st : ZaberModeSelector)
    (m : ZaberMotor) (d : Device) (rest : List Device) (len pos : ℚ)
    (sp : Option ℚ) (lu su pu : Option PyVal) (b : Bool) :
    ZaberModeSelector.move_by st [] len sp = Except.error PyErr.indexError ∧
    ZaberModeSelector.move_by st (d :: rest) len sp =
      Except.ok (Cmd.moveRel d.devId len st.length_unit (sp.getD st.speed)
        st.speed_unit) ∧
    ZaberModeSelector.check_position st [] = Except.error PyErr.indexError ∧
    ZaberModeSelector.check_position st (d :: rest) = Except.ok d.position ∧
    ZaberModeSelector.move_to st [] pos = Except.error PyErr.indexError ∧
    ZaberModeSelector.move_to st (d :: rest) pos =
      Except.ok (Cmd.moveAbs d.devId pos st.length_unit st.speed
        st.speed_unit) ∧
    ZaberModeSelector.enable_led st [] b = Except.error PyErr.indexError ∧
    ZaberModeSelector.enable_led st (d :: rest) b =
      Except.ok (Cmd.setLed d.devId (if b then 1 else 0)) ∧
    ZaberMotor.check_position m [] pu = Except.error PyErr.indexError ∧
    ZaberMotor.check_position m (d :: rest) pu = Except.ok d.position ∧
    ZaberMotor.move_by m [] len sp lu su = Except.error PyErr.indexError ∧
    ZaberMotor.move_by m (d :: rest) len sp lu su =
      Except.ok (MotorCmd.moveRel d.devId len
        (lu.getD (PyVal.unitVal m.length_unit)) (sp.getD m.speed)
        (su.getD (PyVal.unitVal m.speed_unit))) :=
  ⟨rfl, rfl, rfl, rfl, rfl, rfl, rfl, rfl, rfl, rfl, rfl, rfl⟩

/-- Claim C9: when get_mode already reports the requested known mode,
set_mode issues no motion command, only logs that the mode is already
selected, and leaves the device list (hence the motor position)
unchanged. -/
theorem set_mode_already_selected_no_motion (st : ZaberModeSelector)
    (d : Device) (rest : List Device) (mode : String)
    (glogs : List LogEvent)
    (hmem : mode ∈ ZaberModeSelector.list_modes st)
    (hget : ZaberModeSelector.get_mode st (d :: rest) =
      Except.ok (mode, glogs)) :
    ZaberModeSelector.set_mode st (d :: rest) mode =
      Except.ok ([],
        glogs ++ [LogEvent.info ("Mode " ++ mode ++ " already selected.")],
        d :: rest) := by
  simp [ZaberModeSelector.set_mode, hmem, hget, ok_bind]

/-- Witness for claim C9 at a concrete already-selected mode. -/
theorem set_mode_already_selected_no_motion_witness :
    "a" ∈ ZaberModeSelector.list_modes
      ⟨[("a", 0), ("b", 10)], "p", 1, none, "deg", "dps"⟩
    ∧ ZaberModeSelector.get_mode
        ⟨[("a", 0), ("b", 10)], "p", 1, none, "deg", "dps"⟩ [⟨1, 0⟩] =
      Except.ok ("a", [])
    ∧ ZaberModeSelector.set_mode
        ⟨[("a", 0), ("b", 10)], "p", 1, none, "deg", "dps"⟩ [⟨1, 0⟩] "a" =
      Except.ok ([], [LogEvent.info "Mode a already selected."], [⟨1, 0⟩]) := by
  have h0 : pyRound 0 = 0 := by norm_num [pyRound]
  have hget : ZaberModeSelector.get_mode
      ⟨[("a", 0), ("b", 10)], "p", 1, none, "deg", "dps"⟩ [⟨1, 0⟩] =
      Except.ok ("a", []) := by
    simp [ZaberModeSelector.get_mode, ZaberModeSelector.check_position,
      findMode, h0, ok_bind]
  refine ⟨by decide, hget, ?_⟩
  have h := set_mode_already_selected_no_motion
    ⟨[("a", 0), ("b", 10)], "p", 1, none, "deg", "dps"⟩ ⟨1, 0⟩ [] "a" []
    (by decide) hget
  simpa using h

/-- Claim C10: when the rounded current position matches several modes,
get_mode returns the name at the first matching index of the mode table
in insertion order. -/
theorem get_mode_first_match_insertion_order (st : ZaberModeSelector)
    (d : Device) (rest : List Device) (i : ℕ) (hi : i < st.modes.length)
    (hmatch : (st.modes.get ⟨i, hi⟩).2 = (pyRound d.position : ℚ))
    (hbefore : ∀ j (hj : j < i),
      (st.modes.get ⟨j, Nat.lt_trans hj hi⟩).2 ≠ (pyRound d.position : ℚ)) :
    ZaberModeSelector.get_mode st (d :: rest) =
      Except.ok ((st.modes.get ⟨i, hi⟩).1, []) := by
  have h := findMode_first hi hmatch hbefore
  simp [ZaberModeSelector.get_mode, ZaberModeSelector.check_position, h,
    ok_bind]

/-- Witness for claim C10: two modes share position 5 and the first one
in insertion order is reported. -/
theorem get_mode_first_match_insertion_order_witness :
    ZaberModeSelector.get_mode
      ⟨[("x", 5), ("y", 5)], "p", 1, none, "deg", "dps"⟩ [⟨1, 51/10⟩] =
      Except.ok ("x", []) := by
  have h := get_mode_first_match_insertion_order
    ⟨[("x", 5), ("y", 5)], "p", 1, none, "deg", "dps"⟩ ⟨1, 51/10⟩ [] 0
    (by norm_num) (by norm_num [pyRound])
    (fun j hj => absurd hj (Nat.not_lt_zero j))
  simpa using h
